import Mathlib

/-!
# Mini Ride Hailing backend — shallow embedding

A shallow embedding of the ride-hailing backend (`main.py`, with the record
schemas from `schemas.py`).  Python floats are modelled as rationals, MongoDB
collections as association lists from `_id` keys (their canonical 24-hex-char
string form) to records, and a raised `HTTPException` as an `Except.error`
carrying the HTTP status code and detail string.  Each endpoint handler
becomes a function that threads the whole store state explicitly, returning
the response (or error) together with the post-state.
-/

namespace RideHailing

/-- Distances: rationals extended with an infinity (`float("inf")`). -/
abbrev Dist := WithTop ℚ

/-- `schemas.Location`: latitude and longitude. -/
structure Location where
  lat : ℚ
  lng : ℚ
deriving DecidableEq

/-- `schemas.Rider`: name, optional phone, optional timestamps (all optional
fields default to `None`). -/
structure Rider where
  name : String
  phone : Option String := none
  created_at : Option Nat := none
  updated_at : Option Nat := none
deriving DecidableEq

/-- `schemas.Driver`: name, optional car/plate/location, availability flag
defaulting to `True`, optional timestamps. -/
structure Driver where
  name : String
  car : Option String := none
  plate : Option String := none
  location : Option Location := none
  is_available : Bool := true
  created_at : Option Nat := none
  updated_at : Option Nat := none
deriving DecidableEq

/-- `schemas.Ride`: rider reference, optional driver reference, pickup and
dropoff locations, status string defaulting to `"requested"`, optional
timestamps. -/
structure Ride where
  rider_id : String
  driver_id : Option String := none
  pickup : Location
  dropoff : Location
  status : String := "requested"
  requested_at : Option Nat := none
  updated_at : Option Nat := none
deriving DecidableEq

/-- A raised `fastapi.HTTPException`: status code and detail string. -/
structure HErr where
  status : Nat
  detail : String
deriving DecidableEq

/-- A hexadecimal character, either case (as accepted by `bytes.fromhex`
underlying `bson.ObjectId`). -/
def isHexChar (c : Char) : Bool :=
  (('0' ≤ c) && (c ≤ '9')) || (('a' ≤ c) && (c ≤ 'f')) || (('A' ≤ c) && (c ≤ 'F'))

/-- `bson.ObjectId.is_valid` on a string: exactly 24 hexadecimal characters. -/
def isValidObjectId (s : String) : Bool :=
  s.length == 24 && s.toList.all isHexChar

/-- `find_one({"_id": k})` / `count_documents({"_id": k})` on a collection:
the first record stored under key `k`, if any. -/
def lookupAssoc (k : String) (l : List (String × α)) : Option α :=
  (l.find? (fun p => p.1 == k)).map (fun p => p.2)

/-- `update_one({"_id": k}, {"$set": ...})` on a collection: rewrite the
first record stored under key `k` (no-op when the key matches nothing). -/
def updateAssoc (k : String) (f : α → α) : List (String × α) → List (String × α)
  | [] => []
  | p :: l => if p.1 == k then (p.1, f p.2) :: l else p :: updateAssoc k f l

/-- The store state: the three collections used by `main.py`, in natural
(insertion) order, plus a counter from which fresh `_id` keys are minted. -/
structure DB where
  riders : List (String × Rider)
  drivers : List (String × Driver)
  rides : List (String × Ride)
  nextId : Nat

/-- The canonical 24-hex-char string form of the `n`-th minted key. -/
def natToHex24 (n : Nat) : String :=
  let ds := Nat.toDigits 16 n
  String.mk (List.replicate (24 - ds.length) '0' ++ ds)

/-- Modelled from the spec: `database.create_document` (from `database.py`,
which is not among the provided sources) inserts the given document into the
named collection under a fresh store key and returns that key (§4.1
`CreateRider`); this is its instance for the `"rider"` collection. -/
def createRiderDoc (r : Rider) (db : DB) : String × DB :=
  let k := natToHex24 db.nextId
  (k, { db with riders := db.riders ++ [(k, r)], nextId := db.nextId + 1 })

/-- Modelled from the spec: `database.create_document` for the `"ride"`
collection (see `createRiderDoc`). -/
def createRideDoc (r : Ride) (db : DB) : String × DB :=
  let k := natToHex24 db.nextId
  (k, { db with rides := db.rides ++ [(k, r)], nextId := db.nextId + 1 })

/-- Python truthiness of an `Optional[str]`: `None` and `""` are falsy. -/
def strOptTruthy : Option String → Bool
  | none => false
  | some s => !(s == "")

/-- Request body of `POST /rides/request` (`RideRequest` in `main.py`). -/
structure RideRequest where
  rider_id : Option String := none
  rider_name : Option String := none
  pickup : Location
  dropoff : Location

/-- The rider-resolution prefix of `request_ride` (`main.py` lines 124-134):
a truthy `rider_id` must be a well-formed key resolving to a stored rider;
otherwise a truthy `rider_name` triggers transient rider creation; otherwise
400 "Provide rider_id or rider_name". -/
def resolveRider (data : RideRequest) (db : DB) : Except HErr (String × DB) :=
  if strOptTruthy data.rider_id then
    match data.rider_id with
    | some rid =>
        if !(isValidObjectId rid) then .error ⟨400, "Invalid rider id"⟩
        else if (lookupAssoc rid db.riders).isNone then .error ⟨404, "Rider not found"⟩
        else .ok (rid, db)
    | none => .error ⟨400, "Provide rider_id or rider_name"⟩
  else
    match data.rider_name with
    | some nm =>
        if nm == "" then .error ⟨400, "Provide rider_id or rider_name"⟩
        else
          let c := createRiderDoc { name := nm } db
          .ok (c.1, c.2)
    | none => .error ⟨400, "Provide rider_id or rider_name"⟩

/-- `dist2` inside `request_ride`: squared Euclidean distance from a stored
driver's last location to the pickup; a driver with no location is at
`float("inf")`. -/
def dist2 (pickup : Location) (d : String × Driver) : Dist :=
  match d.2.location with
  | none => ⊤
  | some loc => (((loc.lat - pickup.lat) ^ 2 + (loc.lng - pickup.lng) ^ 2 : ℚ) : Dist)

/-- The comparison `available.sort(key=dist2)` sorts by. -/
def distLE (pickup : Location) (a b : String × Driver) : Bool :=
  decide (dist2 pickup a ≤ dist2 pickup b)

/-- `db["driver"].find({"is_available": True})`: the available drivers in
store iteration order. -/
def availableDrivers (db : DB) : List (String × Driver) :=
  db.drivers.filter (fun p => p.2.is_available)

/-- `available.sort(key=dist2); driver_obj = available[0]` (with
`driver_obj = None` on an empty candidate list): Python's `list.sort` is a
stable sort, embedded as `List.mergeSort`. -/
def selectDriver (pickup : Location) (avail : List (String × Driver)) :
    Option (String × Driver) :=
  (avail.mergeSort (distLE pickup)).head?

/-- The dispatch suffix of `request_ride` (`main.py` lines 136-163), after the
rider has been resolved to `rid`: select the nearest available driver, insert
the Ride, mark the selected driver unavailable, and read the Ride back. -/
def dispatchRide (data : RideRequest) (rid : String) (db : DB) :
    Except HErr (Option (String × Ride)) × DB :=
  let driver_obj := selectDriver data.pickup (availableDrivers db)
  let ride : Ride :=
    { rider_id := rid
      driver_id := driver_obj.map (fun p => p.1)
      pickup := data.pickup
      dropoff := data.dropoff
      status := if driver_obj.isSome then "assigned" else "requested" }
  let c := createRideDoc ride db
  let db3 :=
    match driver_obj with
    | some p =>
        { c.2 with
          drivers := updateAssoc p.1 (fun d => { d with is_available := false }) c.2.drivers }
    | none => c.2
  (.ok ((lookupAssoc c.1 db3.rides).map (fun r => (c.1, r))), db3)

/-- `POST /rides/request` (`request_ride` in `main.py`). -/
def request_ride (data : RideRequest) (db : DB) :
    Except HErr (Option (String × Ride)) × DB :=
  match resolveRider data db with
  | .error e => (.error e, db)
  | .ok rd => dispatchRide data rd.1 rd.2

/-- `GET /rides/{ride_id}` (`get_ride` in `main.py`). -/
def get_ride (ride_id : String) (db : DB) : Except HErr (String × Ride) × DB :=
  if !(isValidObjectId ride_id) then (.error ⟨400, "Invalid ride id"⟩, db)
  else
    match lookupAssoc ride_id db.rides with
    | none => (.error ⟨404, "Ride not found"⟩, db)
    | some r => (.ok (ride_id, r), db)

/-- Modelled from the spec: `GetDriver(id) -> Driver | NotFound` (§4.1); no
such endpoint is among the provided sources.  Like `get_ride`: `InvalidID`
(HTTP 400) for a malformed key, checked before the store is consulted,
`NotFound` (404) for a well-formed key with no record, else the record. -/
def get_driver (driver_id : String) (db : DB) : Except HErr (String × Driver) × DB :=
  if !(isValidObjectId driver_id) then (.error ⟨400, "Invalid driver id"⟩, db)
  else
    match lookupAssoc driver_id db.drivers with
    | none => (.error ⟨404, "Driver not found"⟩, db)
    | some d => (.ok (driver_id, d), db)

/-- Modelled from the spec: `GetRider(id) -> Rider | NotFound` (§4.1); no
such endpoint is among the provided sources (see `get_driver`). -/
def get_rider (rider_id : String) (db : DB) : Except HErr (String × Rider) × DB :=
  if !(isValidObjectId rider_id) then (.error ⟨400, "Invalid rider id"⟩, db)
  else
    match lookupAssoc rider_id db.riders with
    | none => (.error ⟨404, "Rider not found"⟩, db)
    | some r => (.ok (rider_id, r), db)

/-- Request body of `PATCH /drivers/{id}/location` (`DriverLocationUpdate`). -/
structure DriverLocationUpdate where
  location : Location
  is_available : Option Bool := none

/-- The `$set` document built by `update_driver_location`: always the new
location, plus `is_available` only when supplied (`is not None`). -/
def applyDriverUpdate (payload : DriverLocationUpdate) (d : Driver) : Driver :=
  let d1 := { d with location := some payload.location }
  match payload.is_available with
  | some b => { d1 with is_available := b }
  | none => d1

/-- `PATCH /drivers/{driver_id}/location` (`update_driver_location` in
`main.py`): validate the key, `$set` the supplied fields, 404 when the update
matched nothing, else read the driver back. -/
def update_driver_location (driver_id : String) (payload : DriverLocationUpdate)
    (db : DB) : Except HErr (Option (String × Driver)) × DB :=
  if !(isValidObjectId driver_id) then (.error ⟨400, "Invalid driver id"⟩, db)
  else
    let drivers1 := updateAssoc driver_id (applyDriverUpdate payload) db.drivers
    let db1 := { db with drivers := drivers1 }
    if (lookupAssoc driver_id db.drivers).isNone then
      (.error ⟨404, "Driver not found"⟩, db1)
    else
      (.ok ((lookupAssoc driver_id drivers1).map (fun d => (driver_id, d))), db1)

/-- The six allowed ride statuses (`allowed` in `update_ride_status`). -/
def allowedStatuses : List String :=
  ["requested", "assigned", "accepted", "in_progress", "completed", "cancelled"]

/-- `PATCH /rides/{ride_id}/status` (`update_ride_status` in `main.py`):
validate the key, then the status, then find the ride; on `completed` or
`cancelled` with a truthy bound `driver_id`, free that driver (an invalid
stored `driver_id` makes `ObjectId(...)` raise, swallowed by the bare
`except: pass`); finally `$set` the status and read the ride back. -/
def update_ride_status (ride_id : String) (newStatus : String) (db : DB) :
    Except HErr (Option (String × Ride)) × DB :=
  if !(isValidObjectId ride_id) then (.error ⟨400, "Invalid ride id"⟩, db)
  else if !(allowedStatuses.contains newStatus) then (.error ⟨400, "Invalid status"⟩, db)
  else
    match lookupAssoc ride_id db.rides with
    | none => (.error ⟨404, "Ride not found"⟩, db)
    | some doc =>
        let db1 :=
          if newStatus = "completed" ∨ newStatus = "cancelled" then
            match doc.driver_id with
            | some did =>
                if did = "" then db
                else if isValidObjectId did then
                  { db with
                    drivers := updateAssoc did (fun d => { d with is_available := true }) db.drivers }
                else db
            | none => db
          else db
        let rides2 := updateAssoc ride_id (fun r => { r with status := newStatus }) db1.rides
        let db2 := { db1 with rides := rides2 }
        (.ok ((lookupAssoc ride_id rides2).map (fun r => (ride_id, r))), db2)

/-- pymongo's `cursor.limit(n)`: `n = 0` means *no limit* (the whole result
set is returned); any other `n` returns at most `|n|` documents (a negative
argument caps the result like its absolute value, merely closing the cursor
after one batch). -/
def mongoLimit (n : Int) (l : List α) : List α :=
  if n = 0 then l else l.take n.natAbs

/-- `GET /rides` (`list_rides` in `main.py`): a filter key is applied only
when truthy and a well-formed ObjectId, else silently dropped; the matching
rides are passed through the store's `.limit(limit)` (an `int`, default 50,
where 0 means unlimited). -/
def list_rides (rider_id driver_id : Option String) (limit : Int) (db : DB) :
    List (String × Ride) :=
  let ridFilt : Option String :=
    match rider_id with
    | some rid => if !(rid == "") && isValidObjectId rid then some rid else none
    | none => none
  let didFilt : Option String :=
    match driver_id with
    | some did => if !(did == "") && isValidObjectId did then some did else none
    | none => none
  mongoLimit limit (db.rides.filter (fun p =>
      (match ridFilt with
       | some rid => p.2.rider_id == rid
       | none => true) &&
      (match didFilt with
       | some did => p.2.driver_id == some did
       | none => true)))

/-! ## Concrete fixtures used to instantiate the theorems -/

def keyA : String := "aaaaaaaaaaaaaaaaaaaaaaaa"

def keyB : String := "bbbbbbbbbbbbbbbbbbbbbbbb"

def keyC : String := "cccccccccccccccccccccccc"

def locO : Location := { lat := 0, lng := 0 }

def locP : Location := { lat := 1, lng := 1 }

def driverNear : Driver := { name := "Dana", location := some locP }

def driverBusy : Driver := { name := "Dale", is_available := false }

def riderR : Rider := { name := "Rita" }

def rideAssigned : Ride :=
  { rider_id := keyA, driver_id := some keyB, pickup := locO, dropoff := locP,
    status := "assigned" }

/-- One available located driver, no rides yet. -/
def dbDispatch : DB :=
  { riders := [], drivers := [(keyB, driverNear)], rides := [], nextId := 0 }

/-- One stored rider, no drivers. -/
def dbNoDrivers : DB :=
  { riders := [(keyA, riderR)], drivers := [], rides := [], nextId := 0 }

/-- An assigned ride bound to an unavailable driver. -/
def dbRide : DB :=
  { riders := [], drivers := [(keyB, driverBusy)], rides := [(keyC, rideAssigned)],
    nextId := 0 }

def reqByName : RideRequest :=
  { rider_id := none, rider_name := some "Alice", pickup := locO, dropoff := locP }

def reqById : RideRequest :=
  { rider_id := some keyA, rider_name := none, pickup := locO, dropoff := locP }

def reqBoth : RideRequest :=
  { rider_id := some keyA, rider_name := some "Mary", pickup := locO, dropoff := locP }

/-- A request whose `rider_id` is present but the empty string (falsy in
Python) alongside a usable name. -/
def reqEmptyId : RideRequest :=
  { rider_id := some "", rider_name := some "Bob", pickup := locO, dropoff := locP }

/-- A location-only partial update (no `is_available` field supplied). -/
def payloadLoc : DriverLocationUpdate := { location := locP }

/-! ## Helper lemmas about the store primitives -/

theorem lookupAssoc_nil (k : String) : lookupAssoc k ([] : List (String × α)) = none := rfl

theorem lookupAssoc_cons (p : String × α) (l : List (String × α)) (k : String) :
    lookupAssoc k (p :: l) = if p.1 == k then some p.2 else lookupAssoc k l := by
  by_cases h : p.1 == k <;> simp [lookupAssoc, List.find?_cons, h]

theorem lookupAssoc_append_fresh (k : String) (l : List (String × α)) (x : α)
    (h : ∀ p ∈ l, p.1 ≠ k) : lookupAssoc k (l ++ [(k, x)]) = some x := by
  induction l with
  | nil => simp [lookupAssoc]
  | cons p t ih =>
      have hp : p.1 ≠ k := h p (List.mem_cons_self p t)
      rw [List.cons_append, lookupAssoc_cons]
      simp only [beq_iff_eq, hp, if_false]
      exact ih (fun q hq => h q (List.mem_cons_of_mem p hq))

theorem lookupAssoc_updateAssoc_self (k : String) (f : α → α) (l : List (String × α)) :
    lookupAssoc k (updateAssoc k f l) = (lookupAssoc k l).map f := by
  induction l with
  | nil => rfl
  | cons p t ih =>
      by_cases h : p.1 = k
      · simp [updateAssoc, h, lookupAssoc_cons]
      · simp [updateAssoc, h, lookupAssoc_cons, ih]

theorem lookupAssoc_updateAssoc_other (k k' : String) (f : α → α) (l : List (String × α))
    (h : k' ≠ k) : lookupAssoc k' (updateAssoc k f l) = lookupAssoc k' l := by
  induction l with
  | nil => rfl
  | cons p t ih =>
      by_cases hp : p.1 = k
      · subst hp
        simp [updateAssoc, lookupAssoc_cons, Ne.symm h]
      · simp [updateAssoc, hp, lookupAssoc_cons, ih]

theorem lookupAssoc_of_mem_nodup {l : List (String × α)} {p : String × α}
    (hn : (l.map Prod.fst).Nodup) (hp : p ∈ l) : lookupAssoc p.1 l = some p.2 := by
  induction l with
  | nil => cases hp
  | cons q t ih =>
      rcases List.mem_cons.mp hp with rfl | hp'
      · simp [lookupAssoc_cons]
      · have hq : q.1 ≠ p.1 := by
          intro hEq
          have : p.1 ∈ t.map Prod.fst := List.mem_map_of_mem Prod.fst hp'
          rw [← hEq] at this
          exact (List.nodup_cons.mp (by simpa using hn)).1 this
        rw [lookupAssoc_cons]
        simp only [beq_iff_eq, hq, if_false]
        exact ih (List.nodup_cons.mp (by simpa using hn)).2 hp'

/-! ## The sort comparator is a lawful total preorder -/

theorem distLE_trans (pk : Location) :
    ∀ a b c, distLE pk a b → distLE pk b c → distLE pk a c := by
  intro a b c hab hbc
  simp only [distLE, decide_eq_true_eq] at *
  exact le_trans hab hbc

theorem distLE_total (pk : Location) : ∀ a b, distLE pk a b || distLE pk b a := by
  intro a b
  simp only [distLE, Bool.or_eq_true, decide_eq_true_eq]
  exact le_total _ _

/-! ## The head of the stable sort: minimal, and earliest among ties -/

theorem selectDriver_cons {pk : Location} {l : List (String × Driver)} {p : String × Driver}
    (h : selectDriver pk l = some p) :
    ∃ t, l.mergeSort (distLE pk) = p :: t := by
  cases hm : l.mergeSort (distLE pk) with
  | nil => rw [selectDriver, hm] at h; cases h
  | cons a t =>
      rw [selectDriver, hm] at h
      cases h
      exact ⟨t, rfl⟩

theorem selectDriver_mem {pk : Location} {l : List (String × Driver)} {p : String × Driver}
    (h : selectDriver pk l = some p) : p ∈ l := by
  obtain ⟨t, hm⟩ := selectDriver_cons h
  have : p ∈ l.mergeSort (distLE pk) := by rw [hm]; exact List.mem_cons_self p t
  exact List.mem_mergeSort.mp this

theorem selectDriver_min {pk : Location} {l : List (String × Driver)} {p : String × Driver}
    (h : selectDriver pk l = some p) :
    ∀ q ∈ l, dist2 pk p ≤ dist2 pk q := by
  intro q hq
  obtain ⟨t, hm⟩ := selectDriver_cons h
  have hs : (l.mergeSort (distLE pk)).Pairwise (fun a b => distLE pk a b) :=
    List.sorted_mergeSort (distLE_trans pk) (distLE_total pk) l
  rw [hm] at hs
  have hq' : q ∈ p :: t := by rw [← hm]; exact List.mem_mergeSort.mpr hq
  rcases List.mem_cons.mp hq' with rfl | hq''
  · exact le_refl _
  · have := (List.pairwise_cons.mp hs).1 q hq''
    simpa only [distLE, decide_eq_true_eq] using this

theorem selectDriver_earliest {pk : Location} {l : List (String × Driver)}
    {p : String × Driver} (hn : l.Nodup) (h : selectDriver pk l = some p)
    {l₁ l₂ : List (String × Driver)} (hsplit : l = l₁ ++ p :: l₂) :
    ∀ q ∈ l₁, dist2 pk p < dist2 pk q := by
  intro q hq
  by_contra hle
  push_neg at hle
  have hqnep : q ≠ p := by
    intro hEq
    subst hEq
    rw [hsplit] at hn
    exact (List.nodup_append.mp hn).2.2 hq (List.mem_cons_self _ _)
  have hsub : List.Sublist [q, p] l := by
    rw [hsplit]
    have h1 : List.Sublist [q] l₁ := List.singleton_sublist.mpr hq
    have h2 : List.Sublist [p] (p :: l₂) := List.singleton_sublist.mpr (List.mem_cons_self _ _)
    simpa using List.Sublist.append h1 h2
  have hqp : distLE pk q p := by
    simp only [distLE, decide_eq_true_eq]
    exact hle
  have hpair := List.pair_sublist_mergeSort (distLE_trans pk) (distLE_total pk) hqp hsub
  obtain ⟨t, hm⟩ := selectDriver_cons h
  rw [hm] at hpair
  have hnds : (p :: t).Nodup := by
    rw [← hm]
    exact ((List.mergeSort_perm l (distLE pk)).nodup_iff).mpr hn
  cases hpair with
  | cons _ h' =>
      have hmem : p ∈ t := h'.subset (by simp)
      exact (List.nodup_cons.mp hnds).1 hmem
  | cons₂ _ h' => exact hqnep rfl

/-! ## Decomposition of `request_ride` -/

theorem resolveRider_cases {data : RideRequest} {db : DB} {rid : String} {db1 : DB}
    (h : resolveRider data db = .ok (rid, db1)) :
    (db1 = db ∧ data.rider_id = some rid) ∨
      ∃ nm, data.rider_name = some nm ∧ rid = natToHex24 db.nextId ∧
        db1 = { db with riders := db.riders ++ [(rid, ({ name := nm } : Rider))],
                        nextId := db.nextId + 1 } := by
  unfold resolveRider at h
  by_cases ht : strOptTruthy data.rider_id = true
  · rw [if_pos ht] at h
    cases hid : data.rider_id with
    | none => rw [hid] at h; cases h
    | some rid' =>
        rw [hid] at h
        by_cases hv : isValidObjectId rid' = true
        · by_cases hl : (lookupAssoc rid' db.riders).isNone = true
          · simp [hv, hl] at h
          · simp [hv, hl] at h
            obtain ⟨h1, h2⟩ := h
            subst h1
            subst h2
            exact Or.inl ⟨rfl, rfl⟩
        · simp [hv] at h
  · rw [if_neg ht] at h
    cases hnm : data.rider_name with
    | none => rw [hnm] at h; cases h
    | some nm =>
        rw [hnm] at h
        by_cases he : nm = ""
        · simp [he] at h
        · simp [he, createRiderDoc] at h
          obtain ⟨h1, h2⟩ := h
          subst h1
          subst h2
          exact Or.inr ⟨nm, rfl, rfl, rfl⟩

theorem resolveRider_state {data : RideRequest} {db : DB} {rid : String} {db1 : DB}
    (h : resolveRider data db = .ok (rid, db1)) :
    db1.drivers = db.drivers ∧ db1.rides = db.rides ∧
      (db1.nextId = db.nextId ∨ db1.nextId = db.nextId + 1) := by
  rcases resolveRider_cases h with ⟨rfl, -⟩ | ⟨nm, -, -, rfl⟩
  · exact ⟨rfl, rfl, Or.inl rfl⟩
  · exact ⟨rfl, rfl, Or.inr rfl⟩

theorem resolveRider_riders {data : RideRequest} {db : DB} {rid : String} {db1 : DB}
    (h : resolveRider data db = .ok (rid, db1)) :
    db1.riders = db.riders ∨
      ∃ nm, data.rider_name = some nm ∧
        db1.riders = db.riders ++ [(natToHex24 db.nextId, ({ name := nm } : Rider))] := by
  rcases resolveRider_cases h with ⟨rfl, -⟩ | ⟨nm, hnm, hrid, rfl⟩
  · exact Or.inl rfl
  · exact Or.inr ⟨nm, hnm, by rw [← hrid]⟩

theorem dispatchRide_eq (data : RideRequest) (rid : String) (db : DB)
    (hfresh : ∀ p ∈ db.rides, p.1 ≠ natToHex24 db.nextId) :
    dispatchRide data rid db =
      (.ok (some (natToHex24 db.nextId,
        ({ rider_id := rid
           driver_id := (selectDriver data.pickup (availableDrivers db)).map (fun p => p.1)
           pickup := data.pickup
           dropoff := data.dropoff
           status := if (selectDriver data.pickup (availableDrivers db)).isSome
                     then "assigned" else "requested" } : Ride))),
       { db with
         rides := db.rides ++ [(natToHex24 db.nextId,
           ({ rider_id := rid
              driver_id := (selectDriver data.pickup (availableDrivers db)).map (fun p => p.1)
              pickup := data.pickup
              dropoff := data.dropoff
              status := if (selectDriver data.pickup (availableDrivers db)).isSome
                        then "assigned" else "requested" } : Ride))]
         drivers := (match selectDriver data.pickup (availableDrivers db) with
           | some p => updateAssoc p.1 (fun d => { d with is_available := false }) db.drivers
           | none => db.drivers)
         nextId := db.nextId + 1 }) := by
  unfold dispatchRide createRideDoc
  cases hsel : selectDriver data.pickup (availableDrivers db) with
  | none =>
      simp only [hsel]
      rw [lookupAssoc_append_fresh _ _ _ hfresh]
      rfl
  | some p =>
      simp only [hsel]
      rw [lookupAssoc_append_fresh _ _ _ hfresh]
      rfl

theorem request_ride_ok_cases {data : RideRequest} {db : DB}
    {res : Option (String × Ride)} {db' : DB}
    (h : request_ride data db = (.ok res, db')) :
    ∃ rid db1, resolveRider data db = .ok (rid, db1) ∧
      dispatchRide data rid db1 = (.ok res, db') := by
  unfold request_ride at h
  cases hres : resolveRider data db with
  | error e => rw [hres] at h; simp at h
  | ok rd => rw [hres] at h; exact ⟨rd.1, rd.2, rfl, h⟩

theorem selectDriver_isSome (pk : Location) {l : List (String × Driver)} (h : l ≠ []) :
    ∃ p, selectDriver pk l = some p := by
  cases hm : l.mergeSort (distLE pk) with
  | nil =>
      have hp := List.mergeSort_perm l (distLE pk)
      rw [hm] at hp
      exact absurd hp.symm.eq_nil h
  | cons a t =>
      refine ⟨a, ?_⟩
      rw [selectDriver, hm]
      rfl

theorem dist2_lt_top_iff (pk : Location) {d : String × Driver} :
    dist2 pk d < ⊤ ↔ d.2.location.isSome := by
  unfold dist2
  cases d.2.location with
  | none => simp
  | some loc =>
      have ht : ((((loc.lat - pk.lat) ^ 2 + (loc.lng - pk.lng) ^ 2 : ℚ)) : Dist) < ⊤ :=
        WithTop.coe_lt_top _
      simpa using ht

theorem selectDriver_nil (pk : Location) : selectDriver pk [] = none := by
  simp [selectDriver]

theorem selectDriver_singleton (pk : Location) (d : String × Driver) :
    selectDriver pk [d] = some d := by
  simp [selectDriver]

/-- Evaluation of the whole request on the one-driver fixture. -/
theorem request_ride_dbDispatch_eval :
    request_ride reqByName dbDispatch =
      (.ok (some ((natToHex24 1),
        ({ rider_id := natToHex24 0, driver_id := some keyB, pickup := locO,
           dropoff := locP, status := "assigned" } : Ride))),
       { riders := [(natToHex24 0, { name := "Alice" })],
         drivers := [(keyB, { driverNear with is_available := false })],
         rides := [(natToHex24 1,
           ({ rider_id := natToHex24 0, driver_id := some keyB, pickup := locO,
              dropoff := locP, status := "assigned" } : Ride))],
         nextId := 2 }) := by
  have hresolve : resolveRider reqByName dbDispatch =
      .ok (natToHex24 0,
        { riders := [(natToHex24 0, { name := "Alice" })],
          drivers := [(keyB, driverNear)], rides := [], nextId := 1 }) := by rfl
  have hstep : request_ride reqByName dbDispatch =
      dispatchRide reqByName (natToHex24 0)
        { riders := [(natToHex24 0, { name := "Alice" })],
          drivers := [(keyB, driverNear)], rides := [], nextId := 1 } := by
    unfold request_ride
    rw [hresolve]
  rw [hstep]
  rw [dispatchRide_eq reqByName (natToHex24 0)
    { riders := [(natToHex24 0, { name := "Alice" })],
      drivers := [(keyB, driverNear)], rides := [], nextId := 1 }
    (fun p hp => absurd hp (List.not_mem_nil p))]
  have ha : availableDrivers
      { riders := [(natToHex24 0, { name := "Alice" })],
        drivers := [(keyB, driverNear)], rides := [], nextId := 1 } =
      [(keyB, driverNear)] := rfl
  simp only [ha, selectDriver_singleton]
  rfl

/-- Evaluation of the whole request on the no-driver fixture. -/
theorem request_ride_dbNoDrivers_eval :
    request_ride reqById dbNoDrivers =
      (.ok (some ((natToHex24 0),
        ({ rider_id := keyA, driver_id := none, pickup := locO,
           dropoff := locP, status := "requested" } : Ride))),
       { riders := [(keyA, riderR)], drivers := [],
         rides := [(natToHex24 0,
           ({ rider_id := keyA, driver_id := none, pickup := locO,
              dropoff := locP, status := "requested" } : Ride))],
         nextId := 1 }) := by
  have hresolve : resolveRider reqById dbNoDrivers = .ok (keyA, dbNoDrivers) := by rfl
  have hstep : request_ride reqById dbNoDrivers =
      dispatchRide reqById keyA dbNoDrivers := by
    unfold request_ride
    rw [hresolve]
  rw [hstep]
  rw [dispatchRide_eq reqById keyA dbNoDrivers
    (fun p hp => absurd hp (List.not_mem_nil p))]
  have ha : availableDrivers dbNoDrivers = [] := rfl
  simp only [ha, selectDriver_nil]
  rfl

/-! ## The claims -/

/-- C1: whenever `request_ride` passes rider resolution and at least one
available driver has a recorded location, the assigned driver is an available
driver with a location minimizing squared Euclidean distance to the pickup
(unlocated candidates being at infinite distance), and it is the earliest
such minimizer in store iteration order: every available driver strictly
before it is strictly farther. -/
theorem requestRide_assigns_nearest
    (data : RideRequest) (db : DB) (res : Option (String × Ride)) (db' : DB)
    (hfresh : ∀ p ∈ db.rides,
      p.1 ≠ natToHex24 db.nextId ∧ p.1 ≠ natToHex24 (db.nextId + 1))
    (hnodup : (db.drivers.map Prod.fst).Nodup)
    (hok : request_ride data db = (.ok res, db'))
    (hloc : ∃ q ∈ availableDrivers db, q.2.location.isSome) :
    ∃ ride_id ride p l₁ l₂,
      res = some (ride_id, ride) ∧
      availableDrivers db = l₁ ++ p :: l₂ ∧
      ride.status = "assigned" ∧
      ride.driver_id = some p.1 ∧
      p.2.location.isSome ∧
      (∀ q ∈ availableDrivers db, dist2 data.pickup p ≤ dist2 data.pickup q) ∧
      (∀ q ∈ l₁, dist2 data.pickup p < dist2 data.pickup q) := by
  obtain ⟨rid, db1, hres, hdisp⟩ := request_ride_ok_cases hok
  obtain ⟨hdr, hri, hnx⟩ := resolveRider_state hres
  have havail : availableDrivers db1 = availableDrivers db := by
    unfold availableDrivers
    rw [hdr]
  have hfresh1 : ∀ p ∈ db1.rides, p.1 ≠ natToHex24 db1.nextId := by
    intro p hp
    rw [hri] at hp
    rcases hnx with h | h
    · rw [h]
      exact (hfresh p hp).1
    · rw [h]
      exact (hfresh p hp).2
  rw [dispatchRide_eq data rid db1 hfresh1] at hdisp
  obtain ⟨q0, hq0, hq0loc⟩ := hloc
  have hnemp : availableDrivers db ≠ [] := by
    intro hnil
    rw [hnil] at hq0
    exact absurd hq0 (List.not_mem_nil q0)
  obtain ⟨p, hsel⟩ := selectDriver_isSome data.pickup hnemp
  rw [havail] at hdisp
  rw [hsel] at hdisp
  have hres_eq : res = some (natToHex24 db1.nextId,
      { rider_id := rid
        driver_id := some p.1
        pickup := data.pickup
        dropoff := data.dropoff
        status := "assigned" }) := by
    have h1 := congrArg Prod.fst hdisp
    simp only at h1
    injection h1 with h1
    exact h1.symm
  have hmem : p ∈ availableDrivers db := selectDriver_mem hsel
  obtain ⟨l₁, l₂, hsplit⟩ := List.append_of_mem hmem
  have hmin : ∀ q ∈ availableDrivers db, dist2 data.pickup p ≤ dist2 data.pickup q :=
    selectDriver_min hsel
  have hploc : p.2.location.isSome := by
    rw [← dist2_lt_top_iff data.pickup]
    have hq0top : dist2 data.pickup q0 < ⊤ := (dist2_lt_top_iff data.pickup).mpr hq0loc
    exact lt_of_le_of_lt (hmin q0 hq0) hq0top
  have hnodup' : (availableDrivers db).Nodup := by
    unfold availableDrivers
    exact (List.Nodup.of_map Prod.fst hnodup).filter _
  have hearliest : ∀ q ∈ l₁, dist2 data.pickup p < dist2 data.pickup q :=
    selectDriver_earliest hnodup' hsel hsplit
  exact ⟨natToHex24 db1.nextId, _, p, l₁, l₂, hres_eq, hsplit, rfl, rfl, hploc, hmin,
    hearliest⟩

/-- Witness for C1 at a store with a single available located driver. -/
theorem requestRide_assigns_nearest_witness :
    ∃ ride_id ride p l₁ l₂,
      (some ((natToHex24 1),
        ({ rider_id := natToHex24 0, driver_id := some keyB, pickup := locO,
           dropoff := locP, status := "assigned" } : Ride)) :
          Option (String × Ride)) = some (ride_id, ride) ∧
      availableDrivers dbDispatch = l₁ ++ p :: l₂ ∧
      ride.status = "assigned" ∧
      ride.driver_id = some p.1 ∧
      p.2.location.isSome ∧
      (∀ q ∈ availableDrivers dbDispatch, dist2 reqByName.pickup p ≤ dist2 reqByName.pickup q) ∧
      (∀ q ∈ l₁, dist2 reqByName.pickup p < dist2 reqByName.pickup q) :=
  requestRide_assigns_nearest reqByName dbDispatch _ _
    (fun p hp => absurd hp (List.not_mem_nil p))
    (by decide)
    request_ride_dbDispatch_eval
    (by decide)

/-- C2: a ride request that passes rider resolution returns a Ride whose
status is "requested" with no driver when no driver is available, and
"assigned" with the selected driver's identity when one was selected. -/
theorem requestRide_status_and_driver
    (data : RideRequest) (db : DB) (res : Option (String × Ride)) (db' : DB)
    (hfresh : ∀ p ∈ db.rides,
      p.1 ≠ natToHex24 db.nextId ∧ p.1 ≠ natToHex24 (db.nextId + 1))
    (hok : request_ride data db = (.ok res, db')) :
    ∃ ride_id ride, res = some (ride_id, ride) ∧
      (availableDrivers db = [] →
        ride.status = "requested" ∧ ride.driver_id = none) ∧
      (∀ p, selectDriver data.pickup (availableDrivers db) = some p →
        ride.status = "assigned" ∧ ride.driver_id = some p.1) := by
  obtain ⟨rid, db1, hres, hdisp⟩ := request_ride_ok_cases hok
  obtain ⟨hdr, hri, hnx⟩ := resolveRider_state hres
  have havail : availableDrivers db1 = availableDrivers db := by
    unfold availableDrivers
    rw [hdr]
  have hfresh1 : ∀ p ∈ db1.rides, p.1 ≠ natToHex24 db1.nextId := by
    intro p hp
    rw [hri] at hp
    rcases hnx with h | h
    · rw [h]
      exact (hfresh p hp).1
    · rw [h]
      exact (hfresh p hp).2
  rw [dispatchRide_eq data rid db1 hfresh1, havail] at hdisp
  have hres_eq := congrArg Prod.fst hdisp
  simp only at hres_eq
  injection hres_eq with hres_eq
  refine ⟨natToHex24 db1.nextId, _, hres_eq.symm, ?_, ?_⟩
  · intro hempty
    rw [hempty]
    simp [selectDriver_nil]
  · intro p hp
    simp [hp]

/-- Witness for C2 at a store with no drivers: the returned ride is
"requested" with no driver. -/
theorem requestRide_status_and_driver_witness :
    ∃ ride_id ride,
      (some ((natToHex24 0),
        ({ rider_id := keyA, driver_id := none, pickup := locO,
           dropoff := locP, status := "requested" } : Ride)) :
          Option (String × Ride)) = some (ride_id, ride) ∧
      (availableDrivers dbNoDrivers = [] →
        ride.status = "requested" ∧ ride.driver_id = none) ∧
      (∀ p, selectDriver reqById.pickup (availableDrivers dbNoDrivers) = some p →
        ride.status = "assigned" ∧ ride.driver_id = some p.1) :=
  requestRide_status_and_driver reqById dbNoDrivers _ _
    (fun p hp => absurd hp (List.not_mem_nil p))
    request_ride_dbNoDrivers_eval

theorem dispatchRide_drivers (data : RideRequest) (rid : String) (db : DB) :
    (dispatchRide data rid db).2.drivers =
      (match selectDriver data.pickup (availableDrivers db) with
       | some p => updateAssoc p.1 (fun d => { d with is_available := false }) db.drivers
       | none => db.drivers) := by
  unfold dispatchRide createRideDoc
  cases hsel : selectDriver data.pickup (availableDrivers db) <;> simp [hsel]

/-- C3: when a driver is selected, `request_ride` stores it with
`is_available = false` (so a subsequent fetch of that driver observes the
flag down), and every other driver record is untouched. -/
theorem requestRide_marks_selected_unavailable
    (data : RideRequest) (db : DB) (res : Option (String × Ride)) (db' : DB)
    (p : String × Driver)
    (hnodup : (db.drivers.map Prod.fst).Nodup)
    (hok : request_ride data db = (.ok res, db'))
    (hsel : selectDriver data.pickup (availableDrivers db) = some p) :
    lookupAssoc p.1 db'.drivers = some { p.2 with is_available := false } ∧
    ∀ k, k ≠ p.1 → lookupAssoc k db'.drivers = lookupAssoc k db.drivers := by
  obtain ⟨rid, db1, hres, hdisp⟩ := request_ride_ok_cases hok
  obtain ⟨hdr, hri, hnx⟩ := resolveRider_state hres
  have havail : availableDrivers db1 = availableDrivers db := by
    unfold availableDrivers
    rw [hdr]
  have hdrv : db'.drivers =
      updateAssoc p.1 (fun d => { d with is_available := false }) db.drivers := by
    have h2 := congrArg Prod.snd hdisp
    simp only at h2
    rw [← h2, dispatchRide_drivers, havail, hsel, hdr]
  have hmem : p ∈ db.drivers :=
    List.mem_of_mem_filter (selectDriver_mem hsel)
  have hlook : lookupAssoc p.1 db.drivers = some p.2 :=
    lookupAssoc_of_mem_nodup hnodup hmem
  constructor
  · rw [hdrv, lookupAssoc_updateAssoc_self, hlook]
    rfl
  · intro k hk
    rw [hdrv, lookupAssoc_updateAssoc_other _ _ _ _ hk]

/-- Witness for C3: the single selected driver's stored record flips to
unavailable, any other key reads back unchanged. -/
theorem requestRide_marks_selected_unavailable_witness :
    lookupAssoc keyB
        { riders := [(natToHex24 0, ({ name := "Alice" } : Rider))],
          drivers := [(keyB, { driverNear with is_available := false })],
          rides := [(natToHex24 1,
            ({ rider_id := natToHex24 0, driver_id := some keyB, pickup := locO,
               dropoff := locP, status := "assigned" } : Ride))],
          nextId := 2 : DB }.drivers =
      some { driverNear with is_available := false } ∧
    ∀ k, k ≠ keyB →
      lookupAssoc k
          { riders := [(natToHex24 0, ({ name := "Alice" } : Rider))],
            drivers := [(keyB, { driverNear with is_available := false })],
            rides := [(natToHex24 1,
              ({ rider_id := natToHex24 0, driver_id := some keyB, pickup := locO,
                 dropoff := locP, status := "assigned" } : Ride))],
            nextId := 2 : DB }.drivers =
        lookupAssoc k dbDispatch.drivers :=
  requestRide_marks_selected_unavailable reqByName dbDispatch _ _ (keyB, driverNear)
    (by decide)
    request_ride_dbDispatch_eval
    (by
      have ha : availableDrivers dbDispatch = [(keyB, driverNear)] := rfl
      rw [ha]
      exact selectDriver_singleton _ _)

/-- C4: updating an existing ride to "completed" or "cancelled" flips its
bound driver's `is_available` back to true (the rest of the driver record
untouched); updating to any of the other four allowed statuses leaves the
driver collection entirely unchanged. -/
theorem updateRideStatus_driver_release
    (ride_id newStatus : String) (db : DB)
    (out : Except HErr (Option (String × Ride))) (db' : DB) (ride : Ride)
    (hv : isValidObjectId ride_id = true)
    (hst : newStatus ∈ allowedStatuses)
    (hride : lookupAssoc ride_id db.rides = some ride)
    (hrun : update_ride_status ride_id newStatus db = (out, db')) :
    ((newStatus = "completed" ∨ newStatus = "cancelled") →
      ∀ did d, ride.driver_id = some did → isValidObjectId did = true →
        lookupAssoc did db.drivers = some d →
        lookupAssoc did db'.drivers = some { d with is_available := true }) ∧
    (newStatus ≠ "completed" → newStatus ≠ "cancelled" → db'.drivers = db.drivers) := by
  have hc : allowedStatuses.contains newStatus = true := by
    show allowedStatuses.elem newStatus = true
    exact List.elem_iff.mpr hst
  unfold update_ride_status at hrun
  rw [hv, hc, hride] at hrun
  simp only [Bool.not_true] at hrun
  have hdb' : db' =
      (let db1 :=
        if newStatus = "completed" ∨ newStatus = "cancelled" then
          match ride.driver_id with
          | some did =>
              if did = "" then db
              else if isValidObjectId did then
                { db with
                  drivers := updateAssoc did
                    (fun d => { d with is_available := true }) db.drivers }
              else db
          | none => db
        else db
       { db1 with
         rides := updateAssoc ride_id (fun r => { r with status := newStatus }) db1.rides }) := by
    have h2 := congrArg Prod.snd hrun
    simp only at h2
    exact h2.symm
  constructor
  · intro hterm did d hdid hdv hlookd
    have hne : did ≠ "" := by
      intro hEq
      rw [hEq] at hdv
      exact absurd hdv (by decide)
    rw [hdb']
    simp only [if_pos hterm, hdid, hne, if_false, hdv, if_true]
    rw [lookupAssoc_updateAssoc_self, hlookd]
    rfl
  · intro h1 h2
    have hterm : ¬ (newStatus = "completed" ∨ newStatus = "cancelled") := by
      intro h
      rcases h with h | h
      · exact h1 h
      · exact h2 h
    rw [hdb']
    simp only [if_neg hterm]

/-- Witness for C4 on a stored assigned ride: completing it makes its driver
available again. -/
theorem updateRideStatus_driver_release_witness :
    ((("completed" : String) = "completed" ∨ ("completed" : String) = "cancelled") →
      ∀ did d, rideAssigned.driver_id = some did → isValidObjectId did = true →
        lookupAssoc did dbRide.drivers = some d →
        lookupAssoc did (update_ride_status keyC "completed" dbRide).2.drivers =
          some { d with is_available := true }) ∧
    (("completed" : String) ≠ "completed" → ("completed" : String) ≠ "cancelled" →
      (update_ride_status keyC "completed" dbRide).2.drivers = dbRide.drivers) :=
  updateRideStatus_driver_release keyC "completed" dbRide
    (update_ride_status keyC "completed" dbRide).1
    (update_ride_status keyC "completed" dbRide).2
    rideAssigned
    (by decide)
    (by decide)
    (by decide)
    rfl

/-- C5: any status outside the six allowed values makes `update_ride_status`
fail with an HTTP 400 error, and the store (every ride's stored status and
every driver's availability in particular) is completely unchanged —
validation happens before any mutation. -/
theorem updateRideStatus_invalid_status
    (ride_id newStatus : String) (db : DB)
    (hst : newStatus ∉ allowedStatuses) :
    ∃ e, (update_ride_status ride_id newStatus db).1 = .error e ∧ e.status = 400 ∧
      (update_ride_status ride_id newStatus db).2 = db := by
  have hc : allowedStatuses.contains newStatus = false := by
    have : allowedStatuses.elem newStatus = false :=
      Bool.eq_false_iff.mpr (fun h => hst (List.elem_iff.mp h))
    exact this
  unfold update_ride_status
  by_cases hv : isValidObjectId ride_id = true
  · rw [hv, hc]
    exact ⟨⟨400, "Invalid status"⟩, rfl, rfl, rfl⟩
  · rw [Bool.eq_false_iff.mpr hv]
    exact ⟨⟨400, "Invalid ride id"⟩, rfl, rfl, rfl⟩

/-- Witness for C5: status "flying" on the stored ride is rejected with a
400 and the store is untouched. -/
theorem updateRideStatus_invalid_status_witness :
    ("flying" : String) ∉ allowedStatuses ∧
    ∃ e, (update_ride_status keyC "flying" dbRide).1 = .error e ∧ e.status = 400 ∧
      (update_ride_status keyC "flying" dbRide).2 = dbRide :=
  ⟨by decide, updateRideStatus_invalid_status keyC "flying" dbRide (by decide)⟩

theorem dispatchRide_riders (data : RideRequest) (rid : String) (db : DB) :
    (dispatchRide data rid db).2.riders = db.riders := by
  unfold dispatchRide createRideDoc
  cases hsel : selectDriver data.pickup (availableDrivers db) <;> simp [hsel]

theorem dispatchRide_fst_isOk (data : RideRequest) (rid : String) (db : DB) :
    ∃ out, (dispatchRide data rid db).1 = .ok out :=
  ⟨_, rfl⟩

/-- C6 counterexample: a request carrying the malformed (empty-string) rider
identity `""` together with a name does not fail with `InvalidID`; it
succeeds and creates a transient rider, because Python's `if not rider_id:`
treats the empty string like an absent identity. -/
theorem requestRide_emptyId_cex :
    request_ride reqEmptyId dbNoDrivers =
      (.ok (some ((natToHex24 1),
        ({ rider_id := natToHex24 0, driver_id := none, pickup := locO,
           dropoff := locP, status := "requested" } : Ride))),
       { riders := [(keyA, riderR), (natToHex24 0, { name := "Bob" })],
         drivers := [],
         rides := [(natToHex24 1,
           ({ rider_id := natToHex24 0, driver_id := none, pickup := locO,
              dropoff := locP, status := "requested" } : Ride))],
         nextId := 2 }) := by
  have hresolve : resolveRider reqEmptyId dbNoDrivers =
      .ok (natToHex24 0,
        { riders := [(keyA, riderR), (natToHex24 0, { name := "Bob" })],
          drivers := [], rides := [], nextId := 1 }) := by rfl
  have hstep : request_ride reqEmptyId dbNoDrivers =
      dispatchRide reqEmptyId (natToHex24 0)
        { riders := [(keyA, riderR), (natToHex24 0, { name := "Bob" })],
          drivers := [], rides := [], nextId := 1 } := by
    unfold request_ride
    rw [hresolve]
  rw [hstep]
  rw [dispatchRide_eq reqEmptyId (natToHex24 0)
    { riders := [(keyA, riderR), (natToHex24 0, { name := "Bob" })],
      drivers := [], rides := [], nextId := 1 }
    (fun p hp => absurd hp (List.not_mem_nil p))]
  have ha : availableDrivers
      { riders := [(keyA, riderR), (natToHex24 0, { name := "Bob" })],
        drivers := [], rides := [], nextId := 1 } = [] := rfl
  simp only [ha, selectDriver_nil]
  rfl

/-- C6 (amended): rider resolution of `request_ride`, with Python falsiness
made explicit — an empty-string identity or name counts as absent.  A
supplied non-empty identity must be well-formed (else `InvalidID`, HTTP 400)
and resolve to a stored rider (else `NotFound`, 404); with no usable
identity, a non-empty name creates a transient rider (name only, no phone,
default timestamps) and the request proceeds; with neither, the request
fails with `BadRequest` (400) and the store is untouched. -/
theorem requestRide_rider_resolution (data : RideRequest) (db : DB) :
    (strOptTruthy data.rider_id = false → strOptTruthy data.rider_name = false →
      request_ride data db = (.error ⟨400, "Provide rider_id or rider_name"⟩, db)) ∧
    (∀ nm, strOptTruthy data.rider_id = false → data.rider_name = some nm → nm ≠ "" →
      (request_ride data db).2.riders =
        db.riders ++ [(natToHex24 db.nextId,
          ({ name := nm, phone := none, created_at := none,
             updated_at := none } : Rider))] ∧
      ∃ out, (request_ride data db).1 = .ok out) ∧
    (∀ rid, data.rider_id = some rid → rid ≠ "" → isValidObjectId rid = false →
      request_ride data db = (.error ⟨400, "Invalid rider id"⟩, db)) ∧
    (∀ rid, data.rider_id = some rid → rid ≠ "" → isValidObjectId rid = true →
      lookupAssoc rid db.riders = none →
      request_ride data db = (.error ⟨404, "Rider not found"⟩, db)) := by
  refine ⟨?_, ?_, ?_, ?_⟩
  · intro hid hnm
    unfold request_ride resolveRider
    rw [hid]
    cases hn : data.rider_name with
    | none => rfl
    | some s =>
        rw [hn] at hnm
        have hs : s = "" := by
          unfold strOptTruthy at hnm
          simpa using hnm
        subst hs
        rfl
  · intro nm hid hnm hne
    have he : (nm == "") = false := by
      simp [hne]
    unfold request_ride resolveRider
    rw [hid, hnm]
    simp only [Bool.false_eq_true, if_false, he]
    rw [dispatchRide_riders]
    refine ⟨?_, dispatchRide_fst_isOk _ _ _⟩
    rfl
  · intro rid hid hne hval
    have htr : strOptTruthy data.rider_id = true := by
      rw [hid]
      unfold strOptTruthy
      simp [hne]
    unfold request_ride resolveRider
    rw [htr]
    simp only [if_true, hid, hval, Bool.not_false, Bool.true_eq_false, if_false]
  · intro rid hid hne hval hlook
    have htr : strOptTruthy data.rider_id = true := by
      rw [hid]
      unfold strOptTruthy
      simp [hne]
    unfold request_ride resolveRider
    rw [htr]
    simp only [if_true, hid, hval, Bool.not_true, Bool.false_eq_true, if_false, hlook,
      Option.isNone_none, if_true]

/-- Witness for the amended C6 on the name-creation branch. -/
theorem requestRide_rider_resolution_witness :
    (request_ride reqByName dbDispatch).2.riders =
      dbDispatch.riders ++ [(natToHex24 dbDispatch.nextId,
        ({ name := "Alice", phone := none, created_at := none,
           updated_at := none } : Rider))] ∧
    ∃ out, (request_ride reqByName dbDispatch).1 = .ok out :=
  (requestRide_rider_resolution reqByName dbDispatch).2.1 "Alice"
    (by decide) rfl (by decide)

/-- C10 counterexample: a request supplying both a rider identity (the
falsy empty string) and a rider name does NOT resolve by the identity alone —
a transient rider is created from the name. -/
theorem requestRide_both_supplied_cex :
    (request_ride reqEmptyId dbDispatch).2.riders =
      [(natToHex24 0, ({ name := "Bob" } : Rider))] ∧
    dbDispatch.riders = [] := by
  have hresolve : resolveRider reqEmptyId dbDispatch =
      .ok (natToHex24 0,
        { riders := [(natToHex24 0, { name := "Bob" })],
          drivers := [(keyB, driverNear)], rides := [], nextId := 1 }) := by rfl
  have hstep : request_ride reqEmptyId dbDispatch =
      dispatchRide reqEmptyId (natToHex24 0)
        { riders := [(natToHex24 0, { name := "Bob" })],
          drivers := [(keyB, driverNear)], rides := [], nextId := 1 } := by
    unfold request_ride
    rw [hresolve]
  rw [hstep, dispatchRide_riders]
  exact ⟨rfl, rfl⟩

/-- C10 (amended): when the request supplies a non-empty rider identity
alongside a rider name, resolution is by the identity alone — the whole
computation is the one of the same request without the name, and no rider
record is ever created; the transient-creation path runs only when the
identity is absent or the falsy empty string. -/
theorem requestRide_id_overrides_name
    (data : RideRequest) (db : DB) (rid : String)
    (h1 : data.rider_id = some rid) (h2 : rid ≠ "") :
    request_ride data db = request_ride { data with rider_name := none } db ∧
    (request_ride data db).2.riders = db.riders := by
  obtain ⟨oid, onm, opk, odf⟩ := data
  replace h1 : oid = some rid := h1
  subst h1
  have htr : strOptTruthy (some rid) = true := by
    unfold strOptTruthy
    simp [h2]
  have key : ∀ nm : Option String,
      resolveRider ⟨some rid, nm, opk, odf⟩ db =
        (if !(isValidObjectId rid) then .error ⟨400, "Invalid rider id"⟩
         else if (lookupAssoc rid db.riders).isNone then .error ⟨404, "Rider not found"⟩
         else .ok (rid, db)) := by
    intro nm
    unfold resolveRider
    simp only [htr, if_true]
  constructor
  · unfold request_ride
    rw [key onm, key none]
    cases hres : (if !(isValidObjectId rid)
        then (.error ⟨400, "Invalid rider id"⟩ : Except HErr (String × DB))
        else if (lookupAssoc rid db.riders).isNone then .error ⟨404, "Rider not found"⟩
        else .ok (rid, db)) with
    | error e => rfl
    | ok rd => rfl
  · unfold request_ride
    rw [key onm]
    by_cases hv : isValidObjectId rid = true
    · rw [hv]
      simp only [Bool.not_true, Bool.false_eq_true, if_false]
      by_cases hl : (lookupAssoc rid db.riders).isNone = true
      · rw [if_pos hl]
      · rw [if_neg hl]
        exact dispatchRide_riders _ _ _
    · rw [Bool.eq_false_iff.mpr hv]
      simp only [Bool.not_false, if_true]

/-- Witness for the amended C10: with a stored rider id and a name both
supplied, the run equals the name-free run and creates no rider. -/
theorem requestRide_id_overrides_name_witness :
    request_ride reqBoth dbNoDrivers =
      request_ride { reqBoth with rider_name := none } dbNoDrivers ∧
    (request_ride reqBoth dbNoDrivers).2.riders = dbNoDrivers.riders :=
  requestRide_id_overrides_name reqBoth dbNoDrivers keyA rfl (by decide)

/-- C7: the three point lookups validate the key before consulting the
store — a malformed key fails with `InvalidID` (HTTP 400) for any store
state, a well-formed key with no matching record fails with `NotFound`
(404), and a well-formed key with a record returns that record; the store is
never modified. -/
theorem get_endpoints_validate_then_lookup (id : String) (db : DB) :
    (isValidObjectId id = false →
      get_ride id db = (.error ⟨400, "Invalid ride id"⟩, db) ∧
      get_driver id db = (.error ⟨400, "Invalid driver id"⟩, db) ∧
      get_rider id db = (.error ⟨400, "Invalid rider id"⟩, db)) ∧
    (isValidObjectId id = true →
      (lookupAssoc id db.rides = none →
        get_ride id db = (.error ⟨404, "Ride not found"⟩, db)) ∧
      (lookupAssoc id db.drivers = none →
        get_driver id db = (.error ⟨404, "Driver not found"⟩, db)) ∧
      (lookupAssoc id db.riders = none →
        get_rider id db = (.error ⟨404, "Rider not found"⟩, db)) ∧
      (∀ r, lookupAssoc id db.rides = some r →
        get_ride id db = (.ok (id, r), db)) ∧
      (∀ d, lookupAssoc id db.drivers = some d →
        get_driver id db = (.ok (id, d), db)) ∧
      (∀ r, lookupAssoc id db.riders = some r →
        get_rider id db = (.ok (id, r), db))) := by
  constructor
  · intro hv
    unfold get_ride get_driver get_rider
    rw [hv]
    exact ⟨rfl, rfl, rfl⟩
  · intro hv
    refine ⟨?_, ?_, ?_, ?_, ?_, ?_⟩
    · intro hlook
      unfold get_ride
      rw [hv, hlook]
      rfl
    · intro hlook
      unfold get_driver
      rw [hv, hlook]
      rfl
    · intro hlook
      unfold get_rider
      rw [hv, hlook]
      rfl
    · intro r hlook
      unfold get_ride
      rw [hv, hlook]
      rfl
    · intro d hlook
      unfold get_driver
      rw [hv, hlook]
      rfl
    · intro r hlook
      unfold get_rider
      rw [hv, hlook]
      rfl

/-- Witness for C7: a stored ride is returned, the same well-formed key with
no driver record is a 404, and a malformed key is a 400. -/
theorem get_endpoints_validate_then_lookup_witness :
    get_ride keyC dbRide = (.ok (keyC, rideAssigned), dbRide) ∧
    get_driver keyC dbRide = (.error ⟨404, "Driver not found"⟩, dbRide) ∧
    get_rider "zz" dbRide = (.error ⟨400, "Invalid rider id"⟩, dbRide) :=
  ⟨((get_endpoints_validate_then_lookup keyC dbRide).2 (by decide)).2.2.2.1
      rideAssigned (by decide),
   ((get_endpoints_validate_then_lookup keyC dbRide).2 (by decide)).2.1 (by decide),
   ((get_endpoints_validate_then_lookup "zz" dbRide).1 (by decide)).2.2⟩

theorem mongoLimit_subset (n : Int) (l : List α) : ∀ p ∈ mongoLimit n l, p ∈ l := by
  intro p hp
  unfold mongoLimit at hp
  split at hp
  · exact hp
  · exact List.take_subset _ _ hp

/-- C8 counterexample: at `limit = 0` the endpoint is NOT a read of "up to
limit" rides — the store's `.limit(0)` means no limit, so the one stored
matching ride is returned, and the result's length exceeds the limit. -/
theorem list_rides_limit_zero_cex :
    list_rides none none 0 dbRide = [(keyC, rideAssigned)] ∧
    ¬ ((list_rides none none 0 dbRide).length ≤ (0 : Int).natAbs) := by
  constructor
  · rfl
  · decide

/-- C8 (amended): `list_rides` never rejects a query.  A falsy or malformed
identity filter is silently dropped (the result equals the one of the query
without that filter), and the result is a pure read of stored rides each
matching every retained well-formed filter — truncated to at most `|limit|`
entries when `limit ≠ 0`, while `limit = 0` (the store's `.limit(0)`) means
no limit: every matching ride is returned. -/
theorem list_rides_drops_malformed_filters
    (rider_id driver_id : Option String) (limit : Int) (db : DB) :
    (∀ rid, rider_id = some rid → (rid = "" ∨ isValidObjectId rid = false) →
      list_rides rider_id driver_id limit db = list_rides none driver_id limit db) ∧
    (∀ did, driver_id = some did → (did = "" ∨ isValidObjectId did = false) →
      list_rides rider_id driver_id limit db = list_rides rider_id none limit db) ∧
    (limit ≠ 0 → (list_rides rider_id driver_id limit db).length ≤ limit.natAbs) ∧
    (limit = 0 → ∀ p ∈ db.rides,
      (∀ rid, rider_id = some rid → rid ≠ "" → isValidObjectId rid = true →
        p.2.rider_id = rid) →
      (∀ did, driver_id = some did → did ≠ "" → isValidObjectId did = true →
        p.2.driver_id = some did) →
      p ∈ list_rides rider_id driver_id limit db) ∧
    (∀ p ∈ list_rides rider_id driver_id limit db,
      p ∈ db.rides ∧
      (∀ rid, rider_id = some rid → rid ≠ "" → isValidObjectId rid = true →
        p.2.rider_id = rid) ∧
      (∀ did, driver_id = some did → did ≠ "" → isValidObjectId did = true →
        p.2.driver_id = some did)) := by
  refine ⟨?_, ?_, ?_, ?_, ?_⟩
  · intro rid hrid hbad
    subst hrid
    have hcond : (!(rid == "") && isValidObjectId rid) = false := by
      rcases hbad with h | h
      · subst h
        rfl
      · rw [h, Bool.and_false]
    unfold list_rides
    simp only [hcond, Bool.false_eq_true, if_false]
  · intro did hdid hbad
    subst hdid
    have hcond : (!(did == "") && isValidObjectId did) = false := by
      rcases hbad with h | h
      · subst h
        rfl
      · rw [h, Bool.and_false]
    unfold list_rides
    simp only [hcond, Bool.false_eq_true, if_false]
  · intro hne
    show (mongoLimit limit (List.filter _ db.rides)).length ≤ limit.natAbs
    unfold mongoLimit
    rw [if_neg hne]
    exact List.length_take_le _ _
  · intro h0 p hp hrid hdid
    subst h0
    show p ∈ mongoLimit 0 (List.filter _ db.rides)
    unfold mongoLimit
    rw [if_pos rfl]
    refine List.mem_filter.mpr ⟨hp, ?_⟩
    rw [Bool.and_eq_true]
    constructor
    · cases hr : rider_id with
      | none => rfl
      | some rid =>
          simp only []
          by_cases hc : (!(rid == "") && isValidObjectId rid) = true
          · rw [if_pos hc]
            have hc' : (!(rid == "")) = true ∧ isValidObjectId rid = true := by
              simpa [Bool.and_eq_true] using hc
            have h1 : rid ≠ "" := by
              simpa using hc'.1
            have h3 := hrid rid hr h1 hc'.2
            simp [h3]
          · rw [if_neg hc]
    · cases hd : driver_id with
      | none => rfl
      | some did =>
          simp only []
          by_cases hc : (!(did == "") && isValidObjectId did) = true
          · rw [if_pos hc]
            have hc' : (!(did == "")) = true ∧ isValidObjectId did = true := by
              simpa [Bool.and_eq_true] using hc
            have h1 : did ≠ "" := by
              simpa using hc'.1
            have h3 := hdid did hd h1 hc'.2
            simp [h3]
          · rw [if_neg hc]
  · intro p hp
    unfold list_rides at hp
    simp only at hp
    have hp' := mongoLimit_subset _ _ p hp
    have hmem : p ∈ db.rides := List.mem_of_mem_filter hp'
    have hcond := List.of_mem_filter hp'
    refine ⟨hmem, ?_, ?_⟩
    · intro rid hrid hne hval
      subst hrid
      have hc : (!(rid == "") && isValidObjectId rid) = true := by
        rw [hval, Bool.and_true]
        simp [hne]
      simp only [hc, if_true, Bool.and_eq_true] at hcond
      have := hcond.1
      simpa [beq_iff_eq] using this
    · intro did hdid hne hval
      subst hdid
      have hc : (!(did == "") && isValidObjectId did) = true := by
        rw [hval, Bool.and_true]
        simp [hne]
      simp only [hc, if_true, Bool.and_eq_true] at hcond
      have := hcond.2
      simpa [beq_iff_eq] using this

/-- Witness for the amended C8: a malformed rider filter is dropped rather
than rejected, the nonzero default limit bounds the result, and at limit 0
the stored matching ride is in the (unlimited) result. -/
theorem list_rides_drops_malformed_filters_witness :
    list_rides (some "zz") none 50 dbRide = list_rides none none 50 dbRide ∧
    (list_rides (some "zz") none 50 dbRide).length ≤ (50 : Int).natAbs ∧
    (keyC, rideAssigned) ∈ list_rides none none 0 dbRide :=
  ⟨(list_rides_drops_malformed_filters (some "zz") none 50 dbRide).1 "zz" rfl
      (Or.inr (by decide)),
   (list_rides_drops_malformed_filters (some "zz") none 50 dbRide).2.2.1 (by decide),
   (list_rides_drops_malformed_filters none none 0 dbRide).2.2.2.1 rfl
     (keyC, rideAssigned) (by decide)
     (fun rid h => Option.noConfusion h)
     (fun did h => Option.noConfusion h)⟩

/-- C9: `update_driver_location` on an existing driver changes only the
supplied fields — the location always, `is_available` only when supplied —
and leaves the driver's name, car, plate and timestamps, every other driver
record, and the rider and ride collections unchanged. -/
theorem updateDriverLocation_frame
    (driver_id : String) (payload : DriverLocationUpdate) (db : DB) (d : Driver)
    (hv : isValidObjectId driver_id = true)
    (hd : lookupAssoc driver_id db.drivers = some d) :
    ∃ out db', update_driver_location driver_id payload db = (out, db') ∧
      (∃ d', lookupAssoc driver_id db'.drivers = some d' ∧
        out = .ok (some (driver_id, d')) ∧
        d'.location = some payload.location ∧
        d'.is_available = (match payload.is_available with
          | some b => b
          | none => d.is_available) ∧
        d'.name = d.name ∧ d'.car = d.car ∧ d'.plate = d.plate ∧
        d'.created_at = d.created_at ∧ d'.updated_at = d.updated_at) ∧
      (∀ k, k ≠ driver_id → lookupAssoc k db'.drivers = lookupAssoc k db.drivers) ∧
      db'.riders = db.riders ∧ db'.rides = db.rides := by
  have hnn : (lookupAssoc driver_id db.drivers).isNone = false := by
    rw [hd]
    rfl
  have hlook2 : lookupAssoc driver_id
      (updateAssoc driver_id (applyDriverUpdate payload) db.drivers) =
      some (applyDriverUpdate payload d) := by
    rw [lookupAssoc_updateAssoc_self, hd]
    rfl
  unfold update_driver_location
  rw [hv]
  simp only [Bool.not_true, Bool.false_eq_true, if_false, hnn]
  refine ⟨_, _, rfl, ⟨applyDriverUpdate payload d, ?_, ?_, ?_, ?_, ?_, ?_, ?_, ?_, ?_⟩,
    ?_, rfl, rfl⟩
  · exact hlook2
  · rw [hlook2]
    rfl
  · cases hpa : payload.is_available <;> simp [applyDriverUpdate, hpa]
  · cases hpa : payload.is_available <;> simp [applyDriverUpdate, hpa]
  · cases hpa : payload.is_available <;> simp [applyDriverUpdate, hpa]
  · cases hpa : payload.is_available <;> simp [applyDriverUpdate, hpa]
  · cases hpa : payload.is_available <;> simp [applyDriverUpdate, hpa]
  · cases hpa : payload.is_available <;> simp [applyDriverUpdate, hpa]
  · cases hpa : payload.is_available <;> simp [applyDriverUpdate, hpa]
  · intro k hk
    exact lookupAssoc_updateAssoc_other _ _ _ _ hk

/-- Witness for C9: a location-only update of the stored (unavailable)
driver keeps its availability and identity fields. -/
theorem updateDriverLocation_frame_witness :
    ∃ out db', update_driver_location keyB payloadLoc dbRide = (out, db') ∧
      (∃ d', lookupAssoc keyB db'.drivers = some d' ∧
        out = .ok (some (keyB, d')) ∧
        d'.location = some payloadLoc.location ∧
        d'.is_available = (match payloadLoc.is_available with
          | some b => b
          | none => driverBusy.is_available) ∧
        d'.name = driverBusy.name ∧ d'.car = driverBusy.car ∧
        d'.plate = driverBusy.plate ∧
        d'.created_at = driverBusy.created_at ∧
        d'.updated_at = driverBusy.updated_at) ∧
      (∀ k, k ≠ keyB → lookupAssoc k db'.drivers = lookupAssoc k dbRide.drivers) ∧
      db'.riders = dbRide.riders ∧ db'.rides = dbRide.rides :=
  updateDriverLocation_frame keyB payloadLoc dbRide driverBusy (by decide) (by decide)

end RideHailing
